import Mathlib

/-!
Verification of the chaos-engineering plan-generation pipeline
(`chaos_code.py`, `backend/clients/opensearch_client.py`, `backend/main.py`).

Python JSON-like values are embedded as the mutual inductive `JVal`
(dicts as association lists `JFields`, JSON arrays as `JList`); Python
exceptions are embedded as `Except String`; component behavior at the
network boundary is parameterized by the outcomes the remote services
would produce (HTTP responses, Bedrock attempt outcomes, stream events).
-/

-- Python/JSON value: None, bool, number, string, list, dict.
mutual
inductive JVal where
  | jnull
  | jbool (b : Bool)
  | jnum (n : Int)
  | jstr (s : String)
  | jarr (items : JList)
  | jobj (fields : JFields)

inductive JList where
  | nil
  | cons (head : JVal) (tail : JList)

inductive JFields where
  | nil
  | cons (key : String) (val : JVal) (tail : JFields)
end

/-- Dict lookup: first binding of the key, if any (Python dict keys are unique). -/
def jfLookup : JFields → String → Option JVal
  | .nil, _ => none
  | .cons k v t, key => if k = key then some v else jfLookup t key

/-- Python truthiness of a JSON-like value (`bool(v)`): None, False, 0, "",
empty list and empty dict are falsy. -/
def truthy : JVal → Bool
  | .jnull => false
  | .jbool b => b
  | .jnum n => n != 0
  | .jstr s => s != ""
  | .jarr .nil => false
  | .jarr (.cons _ _) => true
  | .jobj .nil => false
  | .jobj (.cons _ _ _) => true

-- Python `repr` of a JSON-like value (what `str` produces on a dict).
mutual
def render : JVal → String
  | .jnull => "None"
  | .jbool b => if b then "True" else "False"
  | .jnum n => toString n
  | .jstr s => "\x27" ++ s ++ "\x27"
  | .jarr xs => "[" ++ renderList xs ++ "]"
  | .jobj fs => "\x7b" ++ renderFields fs ++ "\x7d"

def renderList : JList → String
  | .nil => ""
  | .cons v .nil => render v
  | .cons v t => render v ++ ", " ++ renderList t

def renderFields : JFields → String
  | .nil => ""
  | .cons k v .nil => "\x27" ++ k ++ "\x27: " ++ render v
  | .cons k v t => "\x27" ++ k ++ "\x27: " ++ render v ++ ", " ++ renderFields t
end

/-- Python `str(v)`: identity on strings, `repr` otherwise. -/
def pyStr : JVal → String
  | .jstr s => s
  | v => render v

/-- Python `x or d` where `x` is a `dict.get` result (None when the key is
absent): the value when truthy, else `d`. -/
def pyOrV (a : Option JVal) (b : JVal) : JVal :=
  match a with
  | some v => if truthy v then v else b
  | none => b

/-- Python `source.get(k, d)`: the value when the key is present (however
falsy), else the default. -/
def pyGet (source : JFields) (k : String) (d : JVal) : JVal :=
  (jfLookup source k).getD d

/-!
Prompt Assembler — `ChaosPlanGenerator._create_prompt`, chaos_code.py lines
421-436: the sample-document extraction and per-field normalization loop.
-/

/-- The `_source` of one hit: `hit.get("_source", {})`, chaos_code.py line 426.
Each hit — and its `_source` — is a JSON object in an OpenSearch reply; a
non-dict `_source` would raise `AttributeError` downstream in Python, so
documents are taken to be field lists here. -/
def hitSource (hit : JFields) : JFields :=
  match jfLookup hit "_source" with
  | some (.jobj fs) => fs
  | _ => JFields.nil

/-- `source.get("message") or source.get("log") or str(source)`,
chaos_code.py line 428. -/
def docMessage (source : JFields) : JVal :=
  pyOrV (jfLookup source "message")
    (pyOrV (jfLookup source "log") (.jstr (render (.jobj source))))

/-- `source.get("@timestamp", source.get("timestamp", "N/A"))`,
chaos_code.py line 432. -/
def docTimestamp (source : JFields) : JVal :=
  pyGet source "@timestamp" (pyGet source "timestamp" (.jstr "N/A"))

/-- `source.get("level", source.get("severity", "N/A"))`,
chaos_code.py line 434. -/
def docLevel (source : JFields) : JVal :=
  pyGet source "level" (pyGet source "severity" (.jstr "N/A"))

/-- `source.get("service", source.get("app", "N/A"))`,
chaos_code.py line 435. -/
def docService (source : JFields) : JVal :=
  pyGet source "service" (pyGet source "app" (.jstr "N/A"))

/-- One entry of `sample_docs`: the dict literal appended at
chaos_code.py lines 430-436. -/
structure SampleDoc where
  doc : Nat
  timestamp : JVal
  message : JVal
  level : JVal
  service : JVal

/-- The loop body for index `i` (0-based) and one hit:
`{"doc": i + 1, "timestamp": ..., "message": ..., "level": ..., "service": ...}`. -/
def normalizeDoc (i : Nat) (hit : JFields) : SampleDoc :=
  let source := hitSource hit
  { doc := i + 1
    timestamp := docTimestamp source
    message := docMessage source
    level := docLevel source
    service := docService source }

/-- `for i, hit in enumerate(hits[:1000]): sample_docs.append(...)`,
chaos_code.py lines 425-436. -/
def create_prompt_sample_docs (hits : List JFields) : List SampleDoc :=
  ((hits.take 1000).enum).map (fun p => normalizeDoc p.1 p.2)

/-!
Model Invoker — `LLMClient.analyze_with_bedrock`, chaos_code.py lines
277-322.  The remote Bedrock call of attempt `k` is abstracted by
`att k : Except String String` (the raised `ClientError`/`Exception`
message, or the extracted response text).  `RunTrace` records the loop's
observable behavior: its outcome, how many attempts were made, and the
`time.sleep(1 * (attempt + 1))` durations in order.
-/

/-- `self.max_retries = 3`, chaos_code.py line 238. -/
def max_retries : Nat := 3

/-- Observable behavior of one `analyze_with_bedrock` call. -/
structure RunTrace where
  result : Except String String
  attemptsMade : Nat
  sleeps : List Nat

/-- The `for attempt in range(self.max_retries)` loop, chaos_code.py lines
282-322, starting at attempt index `k` with `fuel` attempts left
(`fuel = max_retries - k`): a successful attempt returns its text at once;
a failed attempt sleeps `1 * (attempt + 1)` seconds iff
`attempt < self.max_retries - 1` (i.e. iff further attempts remain); after
the last attempt the loop raises
`Exception(f"All {self.max_retries} attempts failed")`. -/
def retryFrom (att : Nat → Except String String) : Nat → Nat → RunTrace
  | k, 0 => ⟨.error ("All " ++ toString max_retries ++ " attempts failed"), k, []⟩
  | k, fuel + 1 =>
    match att k with
    | .ok t => ⟨.ok t, k + 1, []⟩
    | .error _ =>
      let r := retryFrom att (k + 1) fuel
      ⟨r.result, r.attemptsMade, (if fuel = 0 then [] else [k + 1]) ++ r.sleeps⟩

/-- `LLMClient.analyze_with_bedrock`: the retry loop run from attempt 0. -/
def analyze_with_bedrock (att : Nat → Except String String) : RunTrace :=
  retryFrom att 0 max_retries

/-!
Plan Orchestrator, blocking path — `ChaosPlanGenerator.generate_plan`,
chaos_code.py lines 374-404.  Prompt construction (`_create_prompt`) is the
pure computation modeled above and cannot fail; the Bedrock attempt
outcomes `att` abstract `self.llm_client.analyze_with_bedrock(prompt)`.
The three `time.time()` readings are passed in as `t0` (line 378), `t1`
(line 393, `end_time`) and `t2` (line 394, the reading subtracted from
`start_time` for `duration_seconds`).
-/

/-- One generation's metrics dict.  Keys other than the three initialized at
chaos_code.py lines 377-381 are `none` until the corresponding
`metrics.update`/assignment runs; `error := none` also models the initial
`"error": None`. -/
structure GenMetrics where
  start_time : ℚ
  success : Bool
  error : Option String
  end_time : Option ℚ
  duration_seconds : Option ℚ
  plan_length : Option Nat

/-- `ChaosPlanGenerator.generate_plan`: returns `(plan text, metrics)`.
On a raised invocation error `e`: `("", metrics with error e)`.
On a returned plan: if truthy (non-empty), success metrics with
`end_time`, `duration_seconds` and `plan_length = len(plan)`; else
`("", metrics with error "Empty response from LLM")`. -/
def generate_plan (att : Nat → Except String String) (t0 t1 t2 : ℚ) :
    String × GenMetrics :=
  let metrics : GenMetrics :=
    { start_time := t0, success := false, error := none
      end_time := none, duration_seconds := none, plan_length := none }
  match (analyze_with_bedrock att).result with
  | .error e => ("", { metrics with error := some e })
  | .ok plan =>
    if plan ≠ "" then
      (plan,
        { metrics with
            success := true
            end_time := some t1
            duration_seconds := some (t2 - t0)
            plan_length := some plan.length })
    else ("", { metrics with error := some "Empty response from LLM" })

/-!
Index Reader — `OpenSearchClient.get_index_data`,
backend/clients/opensearch_client.py lines 43-77 (identical in
chaos_code.py lines 191-226).  The two HTTP calls are abstracted by their
outcomes: `Except String HttpResp` is a raised transport error or a
response; `HttpResp.body` is the outcome of `.json()` on that response.
-/

/-- One `requests` response: `ok` is `response.ok` (status below 400), and
`body` the outcome of `response.json()`. -/
structure HttpResp where
  ok : Bool
  body : Except String JVal

/-- `response.raise_for_status()`: raises iff the status is not ok. -/
def raise_for_status (r : HttpResp) : Except String Unit :=
  if r.ok then .ok () else .error "HTTPError"

/-- Python `v.get(k, dflt)` on a parsed JSON value: a dict lookup with
default, raising `AttributeError` when `v` is not a dict. -/
def jGet (v : JVal) (k : String) (dflt : JVal) : Except String JVal :=
  match v with
  | .jobj fs => .ok ((jfLookup fs k).getD dflt)
  | _ => .error "AttributeError"

/-- Python `v[k]` on a parsed JSON value: raises `KeyError` on a missing
key and `TypeError` on a non-dict. -/
def jIndex (v : JVal) (k : String) : Except String JVal :=
  match v with
  | .jobj fs =>
    match jfLookup fs k with
    | some x => .ok x
    | none => .error "KeyError"
  | _ => .error "TypeError"

/-- Python `len(v)` used on the hits value: requires a list. -/
def asList : JVal → Except String JList
  | .jarr xs => .ok xs
  | _ => .error "TypeError"

/-- Length of an embedded JSON list. -/
def jlistLength : JList → Nat
  | .nil => 0
  | .cons _ t => jlistLength t + 1

/-- The success payload of `get_index_data` (the dict built at
opensearch_client.py lines 69-76). -/
structure FetchOk where
  mapping : JVal
  documents : JVal
  sample_size : Nat
  total_hits : JVal
  took_ms : JVal

/-- The `try` body of `get_index_data`, in evaluation order: the mapping
GET, the search POST, `raise_for_status`, `search_response.json()`, the
hits extraction, then the result dict — whose `mapping` value is
`mapping_response.json() if mapping_response.ok else {}` and whose
`total_hits` value re-reads `data['hits']['total']['value']` with `{}`/0
defaults, and `took_ms` is `data.get('took', 0)`. -/
def get_index_data_body (mapResp searchResp : Except String HttpResp) :
    Except String FetchOk := do
  let mapping_response ← mapResp
  let search_response ← searchResp
  let _ ← raise_for_status search_response
  let data ← search_response.body
  let hitsOuter ← jGet data "hits" (JVal.jobj JFields.nil)
  let hits ← jGet hitsOuter "hits" (JVal.jarr JList.nil)
  let hitsList ← asList hits
  let mapping ←
    if mapping_response.ok then mapping_response.body
    else .ok (JVal.jobj JFields.nil)
  let hitsOuterAgain ← jGet data "hits" (JVal.jobj JFields.nil)
  let totalOuter ← jGet hitsOuterAgain "total" (JVal.jobj JFields.nil)
  let totalVal ← jGet totalOuter "value" (JVal.jnum 0)
  let took ← jGet data "took" (JVal.jnum 0)
  pure ⟨mapping, data, jlistLength hitsList, totalVal, took⟩

/-- The result dict of `get_index_data`: on success the five data keys plus
`success: True`; on failure only `success: False` and `error`. -/
structure FetchResult where
  success : Bool
  mapping : Option JVal
  documents : Option JVal
  sample_size : Option Nat
  total_hits : Option JVal
  took_ms : Option JVal
  error : Option String

/-- `OpenSearchClient.get_index_data`: the `try` body with its
`except Exception` boundary — every raise is converted to
`{"success": False, "error": str(e)}`. -/
def get_index_data (mapResp searchResp : Except String HttpResp) :
    FetchResult :=
  match get_index_data_body mapResp searchResp with
  | .ok r =>
    { success := true, mapping := some r.mapping
      documents := some r.documents, sample_size := some r.sample_size
      total_hits := some r.total_hits, took_ms := some r.took_ms
      error := none }
  | .error e =>
    { success := false, mapping := none, documents := none
      sample_size := none, total_hits := none, took_ms := none
      error := some e }

/-!
Model Invoker, incremental path —
`LLMClient.analyze_with_bedrock_streaming`, chaos_code.py lines 324-357.
The provider's event stream is abstracted as the list of parsed chunks
(`json.loads(event["chunk"]["bytes"])`); the generator yields the chunk's
delta text for `content_block_delta` chunks with truthy text, and a
mid-stream raise (missing key, non-dict chunk) ends the generator with
that error.
-/

/-- `chunk["type"] == "content_block_delta"`: Python equality of a JSON
value against a string literal. -/
def jeqStr (v : JVal) (s : String) : Bool :=
  match v with
  | .jstr t => t = s
  | _ => false

/-- One run of the streaming generator over the parsed chunks: the yielded
values in order, and the raised error that ended the stream, if any. -/
def streamRun : List JVal → List JVal × Option String
  | [] => ([], none)
  | c :: rest =>
    match jIndex c "type" with
    | .error e => ([], some e)
    | .ok tv =>
      if jeqStr tv "content_block_delta" then
        match jIndex c "delta" with
        | .error e => ([], some e)
        | .ok dv =>
          match jGet dv "text" (JVal.jstr "") with
          | .error e => ([], some e)
          | .ok text =>
            if truthy text then
              ((streamRun rest).1.cons text, (streamRun rest).2)
            else streamRun rest
      else streamRun rest

/-- `chunk["delta"].get("text", "")` for one chunk. -/
def chunkDeltaText (c : JVal) : Except String JVal := do
  let dv ← jIndex c "delta"
  jGet dv "text" (JVal.jstr "")

/-!
Plan Orchestrator, incremental path — `plan_generator_stream`,
backend/main.py lines 193-228.  The fetch outcome is the `FetchResult`
returned by `get_index_data`, and the model's event stream is the parsed
chunk list consumed by `analyze_with_bedrock_streaming` (reached through
`ChaosPlanGenerator.generate_plan_streaming`, which only builds the prompt
and delegates).  `modelInvoked` records whether control reached that
delegation.
-/

/-- `index_data.get('error')` rendered into the f-string: the error value,
or `None` when the key is absent. -/
def fetchErrorStr (r : FetchResult) : String :=
  match r.error with
  | some e => e
  | none => "None"

/-- Observable behavior of one `plan_generator_stream` run: the yielded
SSE fragments, and whether the model-invocation step was reached. -/
structure StreamOut where
  fragments : List String
  modelInvoked : Bool

/-- `plan_generator_stream`: on fetch failure, yield the single structured
error fragment and return; otherwise yield `f"data: {chunk}\n\n"` per
streamed chunk, with a mid-stream raise caught by the surrounding
`except` and converted to a final error fragment. -/
def plan_generator_stream (index_data : FetchResult) (events : List JVal) :
    StreamOut :=
  if index_data.success = false then
    { fragments :=
        ["data: \x7b\"error\": \"Failed to fetch index data: " ++
          fetchErrorStr index_data ++ "\"\x7d\n\n"]
      modelInvoked := false }
  else
    { fragments :=
        (streamRun events).1.map (fun c => "data: " ++ pyStr c ++ "\n\n") ++
          (match (streamRun events).2 with
           | some e => ["data: \x7b\"error\": \"" ++ e ++ "\"\x7d\n\n"]
           | none => [])
      modelInvoked := true }

/-- C1: `LLMClient.analyze_with_bedrock` makes at most 3 attempts; if every
attempt fails it fails with the exhaustion error naming the attempt count
(3) after exactly 3 attempts, sleeping 1s then 2s between attempts and not
after the final failure; a successful attempt returns its text immediately
with no further attempts, and only the earlier failed attempts sleep. -/
theorem c1_bedrock_bounded_retry (att : Nat → Except String String) :
    (analyze_with_bedrock att).attemptsMade ≤ 3 ∧
    ((∀ k, k < 3 → ∃ e, att k = Except.error e) →
      (analyze_with_bedrock att).result = Except.error "All 3 attempts failed" ∧
      (analyze_with_bedrock att).attemptsMade = 3 ∧
      (analyze_with_bedrock att).sleeps = [1, 2]) ∧
    (∀ t, att 0 = Except.ok t →
      (analyze_with_bedrock att).result = Except.ok t ∧
      (analyze_with_bedrock att).attemptsMade = 1 ∧
      (analyze_with_bedrock att).sleeps = []) ∧
    (∀ e t, att 0 = Except.error e → att 1 = Except.ok t →
      (analyze_with_bedrock att).result = Except.ok t ∧
      (analyze_with_bedrock att).attemptsMade = 2 ∧
      (analyze_with_bedrock att).sleeps = [1]) ∧
    (∀ e0 e1 t, att 0 = Except.error e0 → att 1 = Except.error e1 →
      att 2 = Except.ok t →
      (analyze_with_bedrock att).result = Except.ok t ∧
      (analyze_with_bedrock att).attemptsMade = 3 ∧
      (analyze_with_bedrock att).sleeps = [1, 2]) := by
  refine ⟨?_, ?_, ?_, ?_, ?_⟩
  · rcases h0 : att 0 with e0 | t0 <;> rcases h1 : att 1 with e1 | t1 <;>
      rcases h2 : att 2 with e2 | t2 <;>
      simp [analyze_with_bedrock, retryFrom, max_retries, h0, h1, h2]
  · intro hall
    obtain ⟨e0, h0⟩ := hall 0 (by norm_num)
    obtain ⟨e1, h1⟩ := hall 1 (by norm_num)
    obtain ⟨e2, h2⟩ := hall 2 (by norm_num)
    refine ⟨?_, by simp [analyze_with_bedrock, retryFrom, max_retries, h0, h1, h2],
      by simp [analyze_with_bedrock, retryFrom, max_retries, h0, h1, h2]⟩
    simp only [analyze_with_bedrock, retryFrom, max_retries, h0, h1, h2]
    rfl
  · intro t h0
    simp [analyze_with_bedrock, retryFrom, max_retries, h0]
  · intro e t h0 h1
    simp [analyze_with_bedrock, retryFrom, max_retries, h0, h1]
  · intro e0 e1 t h0 h1 h2
    simp [analyze_with_bedrock, retryFrom, max_retries, h0, h1, h2]

/-- C1 witness: a backend failing on all attempts exhausts after exactly 3
attempts with sleeps of 1s and 2s. -/
theorem c1_bedrock_bounded_retry_witness :
    (analyze_with_bedrock fun _ => Except.error "x").result =
      Except.error "All 3 attempts failed" ∧
    (analyze_with_bedrock fun _ => Except.error "x").attemptsMade = 3 ∧
    (analyze_with_bedrock fun _ => Except.error "x").sleeps = [1, 2] :=
  (c1_bedrock_bounded_retry fun _ => Except.error "x").2.1
    (fun _ _ => ⟨"x", rfl⟩)

/-- C2: the normalized sample of `_create_prompt` has exactly
`min N 1000` entries; entry `i` (0-based) is the normalization of input
document `i` — so every document of a sample of size `N ≤ 1000` appears
exactly once, in original order, and for `N > 1000` exactly the first 1000
appear — and its `doc` field is `i + 1`, i.e. the sequence numbers are
`1..min N 1000` in order. -/
theorem c2_sample_truncation_order (hits : List JFields) :
    (create_prompt_sample_docs hits).length = min hits.length 1000 ∧
    (∀ i : Nat, (create_prompt_sample_docs hits)[i]? =
      ((hits.take 1000)[i]?).map (fun h => normalizeDoc i h)) ∧
    (∀ i : Nat, i < 1000 → (hits.take 1000)[i]? = hits[i]?) ∧
    (∀ i : Nat, ∀ h : JFields, (normalizeDoc i h).doc = i + 1) := by
  refine ⟨?_, ?_, ?_, ?_⟩
  · simp [create_prompt_sample_docs, Nat.min_comm]
  · intro i
    rw [create_prompt_sample_docs, List.getElem?_map, List.getElem?_enum]
    cases (hits.take 1000)[i]? <;> simp
  · intro i hi
    exact List.getElem?_take_of_lt hi
  · intro i h
    rfl

/-- C2 witness: a two-document sample normalizes to two entries numbered 1
and 2 in the input order. -/
theorem c2_sample_truncation_order_witness :
    (create_prompt_sample_docs
      [JFields.cons "_source" (JVal.jobj JFields.nil) JFields.nil,
       JFields.nil]).length = min 2 1000 ∧
    (create_prompt_sample_docs
      [JFields.cons "_source" (JVal.jobj JFields.nil) JFields.nil,
       JFields.nil])[1]? =
      some (normalizeDoc 1 JFields.nil) := by
  have h := c2_sample_truncation_order
    [JFields.cons "_source" (JVal.jobj JFields.nil) JFields.nil, JFields.nil]
  refine ⟨h.1, ?_⟩
  rw [h.2.1 1, h.2.2.1 1 (by norm_num)]
  rfl

/-- C3: per-field fallback chains of the normalized entry, applied
independently per field: `message` is the truthy `message` field, else the
truthy `log` field, else the string rendering of the entire record;
`timestamp` is the `@timestamp` field, else the `timestamp` field, else
the literal `"N/A"`; `level` is `level`, else `severity`, else `"N/A"`;
`service` is `service`, else `app`, else `"N/A"` — so every field of every
normalized entry always has a value (the final fallback is total). -/
theorem c3_field_fallback_chains (source : JFields) :
    (∀ v, jfLookup source "message" = some v → truthy v = true →
      docMessage source = v) ∧
    (truthy ((jfLookup source "message").getD JVal.jnull) = false →
      ∀ w, jfLookup source "log" = some w → truthy w = true →
        docMessage source = w) ∧
    (truthy ((jfLookup source "message").getD JVal.jnull) = false →
      truthy ((jfLookup source "log").getD JVal.jnull) = false →
        docMessage source = JVal.jstr (render (JVal.jobj source))) ∧
    (∀ v, jfLookup source "@timestamp" = some v → docTimestamp source = v) ∧
    (jfLookup source "@timestamp" = none →
      ∀ v, jfLookup source "timestamp" = some v → docTimestamp source = v) ∧
    (jfLookup source "@timestamp" = none →
      jfLookup source "timestamp" = none →
        docTimestamp source = JVal.jstr "N/A") ∧
    (∀ v, jfLookup source "level" = some v → docLevel source = v) ∧
    (jfLookup source "level" = none →
      ∀ v, jfLookup source "severity" = some v → docLevel source = v) ∧
    (jfLookup source "level" = none → jfLookup source "severity" = none →
      docLevel source = JVal.jstr "N/A") ∧
    (∀ v, jfLookup source "service" = some v → docService source = v) ∧
    (jfLookup source "service" = none →
      ∀ v, jfLookup source "app" = some v → docService source = v) ∧
    (jfLookup source "service" = none → jfLookup source "app" = none →
      docService source = JVal.jstr "N/A") := by
  refine ⟨?_, ?_, ?_, ?_, ?_, ?_, ?_, ?_, ?_, ?_, ?_, ?_⟩ <;>
    simp only [docMessage, docTimestamp, docLevel, docService, pyOrV, pyGet]
  · intro v hv ht
    simp [hv, ht]
  · intro hm w hw ht
    rcases h : jfLookup source "message" with _ | mv
    · simp [hw, ht]
    · rw [h] at hm
      simp only [Option.getD_some] at hm
      simp [hm, hw, ht]
  · intro hm hl
    rcases h : jfLookup source "message" with _ | mv
    · rcases h2 : jfLookup source "log" with _ | lv
      · simp
      · rw [h2] at hl
        simp only [Option.getD_some] at hl
        simp [hl]
    · rw [h] at hm
      simp only [Option.getD_some] at hm
      rcases h2 : jfLookup source "log" with _ | lv
      · simp [hm]
      · rw [h2] at hl
        simp only [Option.getD_some] at hl
        simp [hm, hl]
  · intro v hv
    simp [hv]
  · intro h0 v hv
    simp [h0, hv]
  · intro h0 h1
    simp [h0, h1]
  · intro v hv
    simp [hv]
  · intro h0 v hv
    simp [h0, hv]
  · intro h0 h1
    simp [h0, h1]
  · intro v hv
    simp [hv]
  · intro h0 v hv
    simp [h0, hv]
  · intro h0 h1
    simp [h0, h1]

/-- C3 witness: a record with none of the candidate fields falls back to
the string rendering of the whole record for `message` and to the literal
`"N/A"` for `timestamp`, `level` and `service`. -/
theorem c3_field_fallback_chains_witness :
    docMessage JFields.nil = JVal.jstr (render (JVal.jobj JFields.nil)) ∧
    docTimestamp JFields.nil = JVal.jstr "N/A" ∧
    docLevel JFields.nil = JVal.jstr "N/A" ∧
    docService JFields.nil = JVal.jstr "N/A" :=
  ⟨(c3_field_fallback_chains JFields.nil).2.2.1 rfl rfl,
   (c3_field_fallback_chains JFields.nil).2.2.2.2.2.1 rfl rfl,
   (c3_field_fallback_chains JFields.nil).2.2.2.2.2.2.2.2.1 rfl rfl,
   (c3_field_fallback_chains JFields.nil).2.2.2.2.2.2.2.2.2.2.2 rfl rfl⟩

/-- C10: the `message` fallback triggers on falsiness, not only absence —
a present-but-falsy `message` value (e.g. the empty string) is discarded
and the entry's message comes from the `log` field or the rendering of the
whole record — whereas a present-but-falsy `@timestamp`, `level` or
`service` value is kept verbatim, the fallback applying only when the key
is absent. -/
theorem c10_falsy_message_fallback (source : JFields) :
    (∀ v, jfLookup source "message" = some v → truthy v = false →
      docMessage source =
        pyOrV (jfLookup source "log")
          (JVal.jstr (render (JVal.jobj source)))) ∧
    (∀ v, jfLookup source "@timestamp" = some v → truthy v = false →
      docTimestamp source = v) ∧
    (∀ v, jfLookup source "level" = some v → truthy v = false →
      docLevel source = v) ∧
    (∀ v, jfLookup source "service" = some v → truthy v = false →
      docService source = v) := by
  refine ⟨?_, ?_, ?_, ?_⟩
  · intro v hv ht
    simp [docMessage, pyOrV, hv, ht]
  · intro v hv ht
    simp [docTimestamp, pyGet, hv]
  · intro v hv ht
    simp [docLevel, pyGet, hv]
  · intro v hv ht
    simp [docService, pyGet, hv]

/-- C10 witness: with `message = ""` and `log = "from log"` the message is
taken from `log`, while an empty present `@timestamp` is kept verbatim. -/
theorem c10_falsy_message_fallback_witness :
    docMessage
        (JFields.cons "message" (JVal.jstr "")
          (JFields.cons "log" (JVal.jstr "from log") JFields.nil)) =
      JVal.jstr "from log" ∧
    docTimestamp (JFields.cons "@timestamp" (JVal.jstr "") JFields.nil) =
      JVal.jstr "" := by
  constructor
  · have h := (c10_falsy_message_fallback
      (JFields.cons "message" (JVal.jstr "")
        (JFields.cons "log" (JVal.jstr "from log") JFields.nil))).1
      (JVal.jstr "") rfl rfl
    rw [h]
    rfl
  · exact (c10_falsy_message_fallback
      (JFields.cons "@timestamp" (JVal.jstr "") JFields.nil)).2.1
      (JVal.jstr "") rfl rfl

/-- The only error `analyze_with_bedrock` ever surfaces is the exhaustion
message naming the attempt count. -/
theorem bedrock_error_is_exhaustion (att : Nat → Except String String) :
    ∀ e, (analyze_with_bedrock att).result = Except.error e →
      e = "All 3 attempts failed" := by
  intro e he
  rcases h0 : att 0 with e0 | t0 <;> rcases h1 : att 1 with e1 | t1 <;>
    rcases h2 : att 2 with e2 | t2 <;>
    simp [analyze_with_bedrock, retryFrom, max_retries, h0, h1, h2] at he <;>
    (rw [← he]; rfl)

/-- C4: `generate_plan` returns an empty plan with `success = false` and a
non-empty error exactly when the model invocation fails or the model
returns an empty result; the empty result is reported through the metrics
error field as the distinct message `"Empty response from LLM"`; a
non-empty model result is returned as the plan with `success = true` and
`plan_length` equal to its length. -/
theorem c4_generate_plan_outcomes (att : Nat → Except String String)
    (t0 t1 t2 : ℚ) :
    (((generate_plan att t0 t1 t2).1 = "" ∧
      (generate_plan att t0 t1 t2).2.success = false ∧
      ∃ e, (generate_plan att t0 t1 t2).2.error = some e ∧ e ≠ "") ↔
      ((∃ e, (analyze_with_bedrock att).result = Except.error e) ∨
        (analyze_with_bedrock att).result = Except.ok "")) ∧
    ((analyze_with_bedrock att).result = Except.ok "" →
      (generate_plan att t0 t1 t2).2.error =
        some "Empty response from LLM") ∧
    (∀ p, (analyze_with_bedrock att).result = Except.ok p → p ≠ "" →
      (generate_plan att t0 t1 t2).1 = p ∧
      (generate_plan att t0 t1 t2).2.success = true ∧
      (generate_plan att t0 t1 t2).2.error = none ∧
      (generate_plan att t0 t1 t2).2.plan_length = some p.length) := by
  rcases h : (analyze_with_bedrock att).result with e | p
  · have hne : e ≠ "" := by
      rw [bedrock_error_is_exhaustion att e h]
      decide
    simp [generate_plan, h, hne]
  · by_cases hp : p = ""
    · subst hp
      simp [generate_plan, h]
    · simp [generate_plan, h, hp]

/-- C4 witness: an invocation that returns the empty string yields an empty
plan whose metrics carry the distinct empty-response error. -/
theorem c4_generate_plan_outcomes_witness :
    (generate_plan (fun _ => Except.ok "") 0 1 2).2.error =
      some "Empty response from LLM" :=
  (c4_generate_plan_outcomes (fun _ => Except.ok "") 0 1 2).2.1 rfl

/-- C5 counterexample: when every invocation attempt fails, the metrics
dict produced by `generate_plan` has no `end_time` and no
`duration_seconds` key — refuting the claim that every metrics record,
"whether the attempt succeeds or fails", carries `endTime` and a
`durationSeconds ≥ 0`. -/
theorem c5_failure_metrics_counterexample :
    (generate_plan (fun _ => Except.error "boom") 0 1 2).2.success = false ∧
    (generate_plan (fun _ => Except.error "boom") 0 1 2).2.end_time = none ∧
    (generate_plan (fun _ => Except.error "boom") 0 1 2).2.duration_seconds =
      none := by
  refine ⟨?_, ?_, ?_⟩ <;> rfl

/-- C5 amended: every metrics record carries `start_time` and `success`;
on success it additionally carries `end_time`, a `duration_seconds ≥ 0`
(for monotone clock readings) and `plan_length` equal to the returned
plan's length, with no error; on failure `end_time`, `duration_seconds`
and `plan_length` are absent and a non-empty error is present. -/
theorem c5_metrics_shape (att : Nat → Except String String)
    (t0 t1 t2 : ℚ) (hmono : t0 ≤ t2) :
    (generate_plan att t0 t1 t2).2.start_time = t0 ∧
    ((generate_plan att t0 t1 t2).2.success = true →
      (generate_plan att t0 t1 t2).2.end_time = some t1 ∧
      (generate_plan att t0 t1 t2).2.duration_seconds = some (t2 - t0) ∧
      0 ≤ t2 - t0 ∧
      (generate_plan att t0 t1 t2).2.error = none ∧
      (generate_plan att t0 t1 t2).2.plan_length =
        some (generate_plan att t0 t1 t2).1.length) ∧
    ((generate_plan att t0 t1 t2).2.success = false →
      (generate_plan att t0 t1 t2).2.end_time = none ∧
      (generate_plan att t0 t1 t2).2.duration_seconds = none ∧
      (generate_plan att t0 t1 t2).2.plan_length = none ∧
      ∃ e, (generate_plan att t0 t1 t2).2.error = some e ∧ e ≠ "") := by
  have hd : (0 : ℚ) ≤ t2 - t0 := by linarith
  rcases h : (analyze_with_bedrock att).result with e | p
  · have hne : e ≠ "" := by
      rw [bedrock_error_is_exhaustion att e h]
      decide
    simp [generate_plan, h, hne]
  · by_cases hp : p = ""
    · subst hp
      simp [generate_plan, h]
    · simp [generate_plan, h, hp, hd]

/-- C5 amended witness: a successful generation at clock readings 0, 1, 2
has `end_time = 1`, `duration_seconds = 2 ≥ 0` and
`plan_length = 4 = len("PLAN")`. -/
theorem c5_metrics_shape_witness :
    (generate_plan (fun _ => Except.ok "PLAN") 0 1 2).2.start_time = 0 ∧
    (generate_plan (fun _ => Except.ok "PLAN") 0 1 2).2.end_time = some 1 ∧
    (generate_plan (fun _ => Except.ok "PLAN") 0 1 2).2.duration_seconds =
      some (2 - 0) ∧
    (generate_plan (fun _ => Except.ok "PLAN") 0 1 2).2.plan_length =
      some (generate_plan (fun _ => Except.ok "PLAN") 0 1 2).1.length := by
  have h := c5_metrics_shape (fun _ => Except.ok "PLAN") 0 1 2 (by norm_num)
  have hs : (generate_plan (fun _ => Except.ok "PLAN") 0 1 2).2.success =
      true := rfl
  obtain ⟨h1, h2, -⟩ := h
  obtain ⟨he, hdur, -, -, hlen⟩ := h2 hs
  exact ⟨h1, he, hdur, hlen⟩

/-- C6: when the mapping request completes with a non-ok status but the
search side succeeds (ok status, parseable body, well-formed hits and
counters), `get_index_data` reports overall success with `mapping` equal
to the empty document. -/
theorem c6_partial_success_mapping (mr : HttpResp)
    (searchResp : Except String HttpResp) (sr : HttpResp) (data : JVal)
    (ho hv : JVal) (hl : JList) (tot tv tk : JVal)
    (hmok : mr.ok = false)
    (hsr : searchResp = Except.ok sr) (hsok : sr.ok = true)
    (hbody : sr.body = Except.ok data)
    (hhits : jGet data "hits" (JVal.jobj JFields.nil) = Except.ok ho)
    (hhits2 : jGet ho "hits" (JVal.jarr JList.nil) = Except.ok hv)
    (hlist : asList hv = Except.ok hl)
    (htot : jGet ho "total" (JVal.jobj JFields.nil) = Except.ok tot)
    (htv : jGet tot "value" (JVal.jnum 0) = Except.ok tv)
    (htk : jGet data "took" (JVal.jnum 0) = Except.ok tk) :
    get_index_data (Except.ok mr) searchResp =
      { success := true, mapping := some (JVal.jobj JFields.nil)
        documents := some data, sample_size := some (jlistLength hl)
        total_hits := some tv, took_ms := some tk, error := none } := by
  subst hsr
  simp [get_index_data, get_index_data_body, raise_for_status, hmok, hsok,
    hbody, hhits, hhits2, hlist, htot, htv, htk, Except.bind, bind, pure,
    Except.pure]

/-- C6 witness: a 404-style mapping response (non-ok, unparseable body)
together with a successful empty search yields overall success with an
empty mapping document. -/
theorem c6_partial_success_mapping_witness :
    get_index_data
      (Except.ok { ok := false, body := Except.error "bad json" })
      (Except.ok
        { ok := true
          body := Except.ok (JVal.jobj
            (JFields.cons "hits"
              (JVal.jobj (JFields.cons "hits" (JVal.jarr JList.nil)
                (JFields.cons "total"
                  (JVal.jobj (JFields.cons "value" (JVal.jnum 7)
                    JFields.nil))
                  JFields.nil)))
              (JFields.cons "took" (JVal.jnum 5) JFields.nil))) }) =
      { success := true, mapping := some (JVal.jobj JFields.nil)
        documents := some (JVal.jobj
          (JFields.cons "hits"
            (JVal.jobj (JFields.cons "hits" (JVal.jarr JList.nil)
              (JFields.cons "total"
                (JVal.jobj (JFields.cons "value" (JVal.jnum 7)
                  JFields.nil))
                JFields.nil)))
            (JFields.cons "took" (JVal.jnum 5) JFields.nil)))
        sample_size := some (jlistLength JList.nil)
        total_hits := some (JVal.jnum 7), took_ms := some (JVal.jnum 5)
        error := none } :=
  c6_partial_success_mapping
    { ok := false, body := Except.error "bad json" } _ _ _ _ _ _ _ _ _
    rfl rfl rfl rfl rfl rfl rfl rfl rfl rfl

/-- C7: `get_index_data` never raises past its boundary — it always returns
a result populating exactly one of the success-path fields or the error
field; in particular a raised transport error on either request, or a
non-ok search status, becomes `success = false` with an error message. -/
theorem c7_fetch_error_boundary (mapResp searchResp : Except String HttpResp) :
    (((get_index_data mapResp searchResp).success = true ∧
      (get_index_data mapResp searchResp).error = none ∧
      (get_index_data mapResp searchResp).mapping.isSome = true ∧
      (get_index_data mapResp searchResp).documents.isSome = true ∧
      (get_index_data mapResp searchResp).sample_size.isSome = true ∧
      (get_index_data mapResp searchResp).total_hits.isSome = true ∧
      (get_index_data mapResp searchResp).took_ms.isSome = true) ∨
     ((get_index_data mapResp searchResp).success = false ∧
      (∃ e, (get_index_data mapResp searchResp).error = some e) ∧
      (get_index_data mapResp searchResp).mapping = none ∧
      (get_index_data mapResp searchResp).documents = none ∧
      (get_index_data mapResp searchResp).sample_size = none ∧
      (get_index_data mapResp searchResp).total_hits = none ∧
      (get_index_data mapResp searchResp).took_ms = none)) ∧
    (∀ e, mapResp = Except.error e →
      (get_index_data mapResp searchResp).success = false ∧
      (get_index_data mapResp searchResp).error = some e) ∧
    (∀ mr e, mapResp = Except.ok mr → searchResp = Except.error e →
      (get_index_data mapResp searchResp).success = false ∧
      (get_index_data mapResp searchResp).error = some e) ∧
    (∀ mr sr, mapResp = Except.ok mr → searchResp = Except.ok sr →
      sr.ok = false →
      (get_index_data mapResp searchResp).success = false ∧
      (get_index_data mapResp searchResp).error = some "HTTPError") := by
  refine ⟨?_, ?_, ?_, ?_⟩
  · rcases h : get_index_data_body mapResp searchResp with e | r <;>
      simp [get_index_data, h]
  · intro e he
    subst he
    simp [get_index_data, get_index_data_body, Except.bind, bind]
  · intro mr e hm hs
    subst hm
    subst hs
    simp [get_index_data, get_index_data_body, Except.bind, bind]
  · intro mr sr hm hs hok
    subst hm
    subst hs
    simp [get_index_data, get_index_data_body, raise_for_status, hok,
      Except.bind, bind]

/-- C7 witness: a raised search transport error is recovered to a
result-with-error value. -/
theorem c7_fetch_error_boundary_witness :
    (get_index_data (Except.ok { ok := true, body := Except.ok JVal.jnull })
      (Except.error "ConnectionError")).success = false ∧
    (get_index_data (Except.ok { ok := true, body := Except.ok JVal.jnull })
      (Except.error "ConnectionError")).error = some "ConnectionError" :=
  (c7_fetch_error_boundary
    (Except.ok { ok := true, body := Except.ok JVal.jnull })
    (Except.error "ConnectionError")).2.2.1
    { ok := true, body := Except.ok JVal.jnull } "ConnectionError" rfl rfl

/-- A successful Python string comparison `v == s` forces `v` to be that
string. -/
theorem jeqStr_eq {v : JVal} {s : String} (h : jeqStr v s = true) :
    v = JVal.jstr s := by
  cases v <;> simp [jeqStr] at h ⊢
  exact h

/-- C8: every fragment yielded by `analyze_with_bedrock_streaming` is a
truthy (non-empty) text delta extracted from a `content_block_delta`
event of the stream; chunks of other types, or whose delta lacks truthy
text, are skipped and never yielded as empty fragments. -/
theorem c8_stream_fragments (events : List JVal) :
    ∀ v ∈ (streamRun events).1,
      truthy v = true ∧
      ∃ c ∈ events,
        jIndex c "type" = Except.ok (JVal.jstr "content_block_delta") ∧
        chunkDeltaText c = Except.ok v := by
  induction events with
  | nil => simp [streamRun]
  | cons c rest ih =>
    intro v hv
    rcases hty : jIndex c "type" with e | tv <;>
      simp only [streamRun, hty] at hv
    · simp at hv
    · by_cases heq : jeqStr tv "content_block_delta"
      · rw [if_pos heq] at hv
        rcases hdl : jIndex c "delta" with e | dv <;>
          simp only [hdl] at hv
        · simp at hv
        · rcases htx : jGet dv "text" (JVal.jstr "") with e | text <;>
            simp only [htx] at hv
          · simp at hv
          · by_cases htr : truthy text
            · rw [if_pos htr] at hv
              rcases List.mem_cons.mp hv with rfl | hvr
              · refine ⟨htr, c, List.mem_cons_self c rest, ?_, ?_⟩
                · rw [hty, jeqStr_eq heq]
                · rw [chunkDeltaText, hdl]
                  simpa [Except.bind, bind] using htx
              · obtain ⟨h1, c2, hc2, h2, h3⟩ := ih v hvr
                exact ⟨h1, c2, List.mem_cons_of_mem c hc2, h2, h3⟩
            · rw [if_neg htr] at hv
              obtain ⟨h1, c2, hc2, h2, h3⟩ := ih v hv
              exact ⟨h1, c2, List.mem_cons_of_mem c hc2, h2, h3⟩
      · rw [if_neg heq] at hv
        obtain ⟨h1, c2, hc2, h2, h3⟩ := ih v hv
        exact ⟨h1, c2, List.mem_cons_of_mem c hc2, h2, h3⟩

/-- C8 witness: a two-chunk stream — one content delta carrying "Hi", then
a `message_stop` chunk — yields exactly the single truthy fragment "Hi". -/
theorem c8_stream_fragments_witness :
    truthy (JVal.jstr "Hi") = true ∧
    (streamRun
      [JVal.jobj (JFields.cons "type" (JVal.jstr "content_block_delta")
          (JFields.cons "delta"
            (JVal.jobj (JFields.cons "text" (JVal.jstr "Hi") JFields.nil))
            JFields.nil)),
       JVal.jobj (JFields.cons "type" (JVal.jstr "message_stop")
          JFields.nil)]).1 = [JVal.jstr "Hi"] := by
  constructor
  · refine (c8_stream_fragments
      [JVal.jobj (JFields.cons "type" (JVal.jstr "content_block_delta")
          (JFields.cons "delta"
            (JVal.jobj (JFields.cons "text" (JVal.jstr "Hi") JFields.nil))
            JFields.nil)),
       JVal.jobj (JFields.cons "type" (JVal.jstr "message_stop")
          JFields.nil)]
      (JVal.jstr "Hi") ?_).1
    rw [show (streamRun
      [JVal.jobj (JFields.cons "type" (JVal.jstr "content_block_delta")
          (JFields.cons "delta"
            (JVal.jobj (JFields.cons "text" (JVal.jstr "Hi") JFields.nil))
            JFields.nil)),
       JVal.jobj (JFields.cons "type" (JVal.jstr "message_stop")
          JFields.nil)]).1 = [JVal.jstr "Hi"] from rfl]
    exact List.mem_singleton_self _
  · rfl

/-- C9: when the index fetch fails, `plan_generator_stream` yields exactly
one structured error fragment carrying the fetch error message and then
terminates — no further fragments, no raise to the consumer (the function
is total and its output is that single-element sequence) — and the model
invocation step is never reached. -/
theorem c9_stream_fetch_failure (index_data : FetchResult)
    (events : List JVal) (hfail : index_data.success = false) :
    (plan_generator_stream index_data events).fragments =
      ["data: \x7b\"error\": \"Failed to fetch index data: " ++
        fetchErrorStr index_data ++ "\"\x7d\n\n"] ∧
    (plan_generator_stream index_data events).modelInvoked = false := by
  rw [plan_generator_stream, if_pos hfail]
  exact ⟨rfl, rfl⟩

/-- C9 witness: a failed fetch (connection refused) produces the single
SSE error fragment and never invokes the model, whatever the model stream
would have produced. -/
theorem c9_stream_fetch_failure_witness :
    (plan_generator_stream
      (get_index_data (Except.error "ConnectionRefused")
        (Except.error "ConnectionRefused"))
      [JVal.jnull]).fragments =
      ["data: \x7b\"error\": \"Failed to fetch index data: " ++
        "ConnectionRefused" ++ "\"\x7d\n\n"] ∧
    (plan_generator_stream
      (get_index_data (Except.error "ConnectionRefused")
        (Except.error "ConnectionRefused"))
      [JVal.jnull]).modelInvoked = false :=
  c9_stream_fetch_failure
    (get_index_data (Except.error "ConnectionRefused")
      (Except.error "ConnectionRefused"))
    [JVal.jnull] rfl
